import Mathlib

/-!
Shallow embedding of the Cura FirmwareUpdateChecker plugin extension
(src/plugins/FirmwareUpdateChecker/FirmwareUpdateChecker.py).

The extension's mutable attributes become an explicit state record; host
side effects (starting a background job, registering a preference, logging,
opening a URL in the desktop browser) become an explicit effects record
returned next to the new state.  Host facilities (preference storage, the
URL opener) and the collaborating plugin files that are not part of the
source under verification (the lookup table, the check job, the message
class) are modelled from the specification.
-/

namespace FirmwareUpdate

/-- A value stored in host preference storage (the host keeps booleans and
strings; truthiness follows the dynamic-language convention). -/
inductive PrefVal
  | b (v : Bool)
  | s (v : String)
deriving DecidableEq

/-- Host preference storage: an association list of key/value pairs. -/
abbrev PrefStore := List (String × PrefVal)

/-- Host `Preferences.addPreference`: registers a key with a default value;
a key already present keeps its stored value. -/
def addPreference (p : PrefStore) (key : String) (dflt : PrefVal) : PrefStore :=
  if p.any (fun kv => kv.1 = key) then p else p ++ [(key, dflt)]

/-- Host `Preferences.getValue`: the stored value for a key, if any. -/
def getValue (p : PrefStore) (key : String) : Option PrefVal :=
  (p.find? (fun kv => kv.1 = key)).map Prod.snd

/-- Truthiness of a preference value, as tested by `if ...getValue(...):`. -/
def truthy : Option PrefVal → Bool
  | some (PrefVal.b v) => v
  | some (PrefVal.s v) => v ≠ ""
  | none => false

/-- Modelled from the spec: firmware metadata held by the lookup table for
one machine id (latest version, redirect/download URL); the class
`FirmwareUpdateCheckerLookup` is not under src/. -/
structure MachineMeta where
  version : String
  redirectUrl : Option String
deriving DecidableEq

/-- Modelled from the spec: the lookup table, a static mapping from machine
id to firmware metadata loaded from the bundled resources/machines.json;
the class `FirmwareUpdateCheckerLookup` is not under src/. -/
structure FirmwareUpdateCheckerLookup where
  entries : List (String × MachineMeta)
deriving DecidableEq

/-- Well-formedness of the lookup table: it is a mapping, so its machine
ids are pairwise distinct (JSON object keys). -/
def FirmwareUpdateCheckerLookup.WF (l : FirmwareUpdateCheckerLookup) : Prop :=
  (l.entries.map Prod.fst).Nodup

/-- Modelled from the spec: the machine ids present in the lookup table. -/
def FirmwareUpdateCheckerLookup.getMachineIds
    (l : FirmwareUpdateCheckerLookup) : List String :=
  l.entries.map Prod.fst

/-- Modelled from the spec: the redirect/download URL the lookup table has
for a machine id, if any. -/
def FirmwareUpdateCheckerLookup.getRedirectUserFor
    (l : FirmwareUpdateCheckerLookup) (machine_id : String) : Option String :=
  (l.entries.find? (fun kv => kv.1 = machine_id)).bind (fun kv => kv.2.redirectUrl)

/-- Modelled from the spec: the per-machine preference key that stores the
last firmware version checked for that machine; `getSettingsKeyForMachine`
lives in FirmwareUpdateCheckerLookup.py, not under src/. -/
def getSettingsKeyForMachine (machine_id : String) : String :=
  "info/latest_checked_firmware_" ++ machine_id

/-- Modelled from the spec: the action name carried by the download button
of the new-firmware notification message; `STR_ACTION_DOWNLOAD` lives in
FirmwareUpdateCheckerMessage.py, not under src/. -/
def STR_ACTION_DOWNLOAD : String := "download"

/-- Modelled from the spec: the new-firmware notification message, which
remembers the machine id it was raised for (`getMachineId`). -/
structure FirmwareUpdateCheckerMessage where
  machineId : String
deriving DecidableEq

/-- A host container (machine definition stack): its own identity, the name
of its definition, and whether it is a GlobalStack. -/
structure Container where
  id : String
  definitionName : String
  isGlobalStack : Bool
deriving DecidableEq

/-- Modelled from the spec: the background version-check job; the class
`FirmwareUpdateCheckerJob` is not under src/.  The extension only
constructs it and starts it, so we record its construction arguments. -/
structure FirmwareUpdateCheckerJob where
  containerName : String
  silent : Bool
deriving DecidableEq

/-- Log severity, mirroring `Logger.log("i", ...)` and `Logger.log("e", ...)`. -/
inductive LogLevel
  | info
  | err
deriving DecidableEq

/-- The observable side effects of one operation of the extension. -/
structure Effects where
  jobsStarted : List FirmwareUpdateCheckerJob
  prefsRegistered : List (String × PrefVal)
  logs : List (LogLevel × String)
  urlsOpened : List String
deriving DecidableEq

/-- No side effects. -/
def emptyEffects : Effects :=
  { jobsStarted := [], prefsRegistered := [], logs := [], urlsOpened := [] }

/-- The mutable state of the `FirmwareUpdateChecker` extension object,
together with the host preference store it talks to and whether
`_onContainerAdded` was connected to the containerAdded signal. -/
structure ExtState where
  download_url : Option String
  check_job : Option FirmwareUpdateCheckerJob
  checked_printer_names : List String
  lookups : Option FirmwareUpdateCheckerLookup
  prefs : PrefStore
  containerAddedConnected : Bool
deriving DecidableEq

/-- `FirmwareUpdateChecker.__init__`: registers the automatic-update-check
preference with default True, connects `_onContainerAdded` exactly when the
preference's value is truthy, and initializes the attributes. -/
def initState (host : PrefStore) : ExtState :=
  let p := addPreference host "info/automatic_update_check" (PrefVal.b true)
  { download_url := none
    check_job := none
    checked_printer_names := []
    lookups := none
    prefs := p
    containerAddedConnected := truthy (getValue p "info/automatic_update_check") }

/-- `FirmwareUpdateChecker._onPluginsLoaded`: returns immediately when the
lookup table is already set; otherwise builds the lookup table from the
bundled resource (passed in as `resource`, the parsed machines.json) and
registers one last-checked-firmware preference per machine id with the
empty string as default.  Also returns the list of registration calls
made. -/
def onPluginsLoaded (resource : FirmwareUpdateCheckerLookup) (st : ExtState) :
    ExtState × List (String × PrefVal) :=
  if st.lookups.isSome then (st, [])
  else
    let regs := resource.getMachineIds.map
      (fun mid => (getSettingsKeyForMachine mid, PrefVal.s ""))
    ({ st with
        lookups := some resource
        prefs := regs.foldl (fun p kv => addPreference p kv.1 kv.2) st.prefs },
      regs)

/-- Lines 88-89 of `FirmwareUpdateChecker.checkFirmwareVersion`: load the
lookup table when it is still missing, keeping the list of preference
registrations the load made. -/
def loadedPair (resource : FirmwareUpdateCheckerLookup) (st : ExtState) :
    ExtState × List (String × PrefVal) :=
  if st.lookups.isNone then onPluginsLoaded resource st else (st, [])

/-- `FirmwareUpdateChecker.checkFirmwareVersion`, continued: after the load
step, reads the container's definition name (raising when the container is
None, modelled as `Except.error`), returns early when the name was already
checked, and otherwise records the name and creates and starts one
background check job, storing it as the current job reference. -/
def checkFirmwareVersion (resource : FirmwareUpdateCheckerLookup) (st : ExtState)
    (container : Option Container) (silent : Bool) :
    Except String (ExtState × Effects) :=
  let loaded := loadedPair resource st
  let st1 := loaded.1
  let regs := loaded.2
  match container with
  | none => Except.error "AttributeError: NoneType object has no attribute definition"
  | some c =>
    let container_name := c.definitionName
    if container_name ∈ st1.checked_printer_names then
      Except.ok (st1,
        { jobsStarted := [], prefsRegistered := regs, logs := [], urlsOpened := [] })
    else
      let st2 := { st1 with
        checked_printer_names := container_name :: st1.checked_printer_names }
      let job : FirmwareUpdateCheckerJob :=
        { containerName := container_name, silent := silent }
      Except.ok ({ st2 with check_job := some job },
        { jobsStarted := [job], prefsRegistered := regs, logs := [], urlsOpened := [] })

/-- `FirmwareUpdateChecker._onActionTriggered`: on the download action,
looks up the redirect URL for the message's machine id and opens it in the
desktop browser (`openUrl` abstracts `QDesktopServices.openUrl`), logging
the outcome; a missing URL is logged as an error.  Reading through a
missing lookup table raises, modelled as `Except.error`. -/
def onActionTriggered (st : ExtState) (openUrl : String → Bool)
    (message : FirmwareUpdateCheckerMessage) (action : String) :
    Except String (ExtState × Effects) :=
  if action = STR_ACTION_DOWNLOAD then
    match st.lookups with
    | none =>
      Except.error "AttributeError: NoneType object has no attribute getRedirectUserFor"
    | some l =>
      match l.getRedirectUserFor message.machineId with
      | some download_url =>
        if openUrl download_url then
          Except.ok (st,
            { jobsStarted := [], prefsRegistered := []
              logs := [(LogLevel.info,
                "Redirected browser to " ++ download_url ++
                  " to show newly available firmware.")]
              urlsOpened := [download_url] })
        else
          Except.ok (st,
            { jobsStarted := [], prefsRegistered := []
              logs := [(LogLevel.err, "Can not reach URL: " ++ download_url)]
              urlsOpened := [download_url] })
      | none =>
        Except.ok (st,
          { jobsStarted := [], prefsRegistered := []
            logs := [(LogLevel.err, "Can not find URL for " ++ message.machineId)]
            urlsOpened := [] })
  else Except.ok (st, emptyEffects)

/-- `FirmwareUpdateChecker._onContainerAdded`: checks the firmware version
(silently) only when the added container is a GlobalStack. -/
def onContainerAdded (resource : FirmwareUpdateCheckerLookup) (st : ExtState)
    (c : Container) : ExtState × Effects :=
  if c.isGlobalStack then
    match checkFirmwareVersion resource st (some c) true with
    | Except.ok r => r
    | Except.error _ => (st, emptyEffects)
  else (st, emptyEffects)

/-- `FirmwareUpdateChecker._onJobFinished`: clears the job reference. -/
def onJobFinished (st : ExtState) : ExtState :=
  { st with check_job := none }

/-- One host event delivered to the extension. -/
inductive Event
  | pluginsLoaded
  | containerAdded (c : Container)
  | jobFinished
  | actionTriggered (openUrl : String → Bool)
      (m : FirmwareUpdateCheckerMessage) (action : String)
  | checkCall (c : Container) (silent : Bool)

/-- Single-threaded event dispatch: the containerAdded signal reaches
`_onContainerAdded` only when it was connected at construction. -/
def step (resource : FirmwareUpdateCheckerLookup) (e : Event) (st : ExtState) :
    ExtState × Effects :=
  match e with
  | Event.pluginsLoaded =>
    let r := onPluginsLoaded resource st
    (r.1, { emptyEffects with prefsRegistered := r.2 })
  | Event.containerAdded c =>
    if st.containerAddedConnected then onContainerAdded resource st c
    else (st, emptyEffects)
  | Event.jobFinished => (onJobFinished st, emptyEffects)
  | Event.actionTriggered f m a =>
    match onActionTriggered st f m a with
    | Except.ok r => r
    | Except.error _ => (st, emptyEffects)
  | Event.checkCall c silent =>
    match checkFirmwareVersion resource st (some c) silent with
    | Except.ok r => r
    | Except.error _ => (st, emptyEffects)

/-- States reachable in one process lifetime: construction followed by any
sequence of dispatched events. -/
inductive Reachable (resource : FirmwareUpdateCheckerLookup) : ExtState → Prop
  | init (host : PrefStore) : Reachable resource (initState host)
  | next (e : Event) (st : ExtState) :
      Reachable resource st → Reachable resource (step resource e st).1

end FirmwareUpdate

/-! ### Helper lemmas -/

namespace FirmwareUpdate

lemma onPluginsLoaded_of_isSome (resource : FirmwareUpdateCheckerLookup)
    (st : ExtState) (h : st.lookups.isSome) :
    onPluginsLoaded resource st = (st, []) := by
  simp [onPluginsLoaded, h]

lemma onPluginsLoaded_of_none (resource : FirmwareUpdateCheckerLookup)
    (st : ExtState) (h : st.lookups = none) :
    onPluginsLoaded resource st =
      ({ st with
          lookups := some resource
          prefs := (resource.getMachineIds.map
              (fun mid => (getSettingsKeyForMachine mid, PrefVal.s ""))).foldl
            (fun p kv => addPreference p kv.1 kv.2) st.prefs },
        resource.getMachineIds.map
          (fun mid => (getSettingsKeyForMachine mid, PrefVal.s ""))) := by
  simp [onPluginsLoaded, h]

lemma onPluginsLoaded_lookups_isSome (resource : FirmwareUpdateCheckerLookup)
    (st : ExtState) : ((onPluginsLoaded resource st).1).lookups.isSome := by
  unfold onPluginsLoaded
  split
  · simpa using by assumption
  · simp

lemma onPluginsLoaded_checked (resource : FirmwareUpdateCheckerLookup)
    (st : ExtState) :
    ((onPluginsLoaded resource st).1).checked_printer_names
      = st.checked_printer_names := by
  unfold onPluginsLoaded
  split <;> simp

lemma onPluginsLoaded_connected (resource : FirmwareUpdateCheckerLookup)
    (st : ExtState) :
    ((onPluginsLoaded resource st).1).containerAddedConnected
      = st.containerAddedConnected := by
  unfold onPluginsLoaded
  split <;> simp

lemma loadedPair_of_isSome (resource : FirmwareUpdateCheckerLookup)
    (st : ExtState) (h : st.lookups.isSome) :
    loadedPair resource st = (st, []) := by
  simp [loadedPair, Option.isNone_iff_eq_none]
  intro hn
  rw [hn] at h
  simp at h

lemma loadedPair_lookups_isSome (resource : FirmwareUpdateCheckerLookup)
    (st : ExtState) : ((loadedPair resource st).1).lookups.isSome := by
  unfold loadedPair
  split
  · exact onPluginsLoaded_lookups_isSome resource st
  · rename_i hn
    cases hl : st.lookups with
    | none => exact absurd (by simp [hl]) hn
    | some l => simp [hl]

lemma loadedPair_checked (resource : FirmwareUpdateCheckerLookup)
    (st : ExtState) :
    ((loadedPair resource st).1).checked_printer_names
      = st.checked_printer_names := by
  unfold loadedPair
  split
  · exact onPluginsLoaded_checked resource st
  · rfl

lemma loadedPair_connected (resource : FirmwareUpdateCheckerLookup)
    (st : ExtState) :
    ((loadedPair resource st).1).containerAddedConnected
      = st.containerAddedConnected := by
  unfold loadedPair
  split
  · exact onPluginsLoaded_connected resource st
  · rfl

lemma checkFirmwareVersion_some_unfold (resource : FirmwareUpdateCheckerLookup)
    (st : ExtState) (c : Container) (silent : Bool) :
    checkFirmwareVersion resource st (some c) silent =
      (if c.definitionName ∈ ((loadedPair resource st).1).checked_printer_names then
         Except.ok ((loadedPair resource st).1,
           { jobsStarted := [], prefsRegistered := (loadedPair resource st).2,
             logs := [], urlsOpened := [] })
       else
         Except.ok ({ (loadedPair resource st).1 with
             checked_printer_names :=
               c.definitionName :: ((loadedPair resource st).1).checked_printer_names
             check_job := some { containerName := c.definitionName, silent := silent } },
           { jobsStarted := [{ containerName := c.definitionName, silent := silent }],
             prefsRegistered := (loadedPair resource st).2,
             logs := [], urlsOpened := [] })) := rfl

lemma checkFirmwareVersion_of_mem (resource : FirmwareUpdateCheckerLookup)
    (st : ExtState) (c : Container) (silent : Bool)
    (hm : c.definitionName ∈ ((loadedPair resource st).1).checked_printer_names) :
    checkFirmwareVersion resource st (some c) silent =
      Except.ok ((loadedPair resource st).1,
        { jobsStarted := [], prefsRegistered := (loadedPair resource st).2,
          logs := [], urlsOpened := [] }) := by
  rw [checkFirmwareVersion_some_unfold]
  exact if_pos hm

lemma checkFirmwareVersion_of_not_mem (resource : FirmwareUpdateCheckerLookup)
    (st : ExtState) (c : Container) (silent : Bool)
    (hm : c.definitionName ∉ ((loadedPair resource st).1).checked_printer_names) :
    checkFirmwareVersion resource st (some c) silent =
      Except.ok ({ (loadedPair resource st).1 with
          checked_printer_names :=
            c.definitionName :: ((loadedPair resource st).1).checked_printer_names
          check_job := some { containerName := c.definitionName, silent := silent } },
        { jobsStarted := [{ containerName := c.definitionName, silent := silent }],
          prefsRegistered := (loadedPair resource st).2,
          logs := [], urlsOpened := [] }) := by
  rw [checkFirmwareVersion_some_unfold]
  exact if_neg hm

lemma checkFirmwareVersion_ok_lookups_isSome
    (resource : FirmwareUpdateCheckerLookup) (st : ExtState) (c : Container)
    (silent : Bool) (st1 : ExtState) (eff : Effects)
    (h : checkFirmwareVersion resource st (some c) silent = Except.ok (st1, eff)) :
    st1.lookups.isSome := by
  by_cases hm : c.definitionName ∈ ((loadedPair resource st).1).checked_printer_names
  · rw [checkFirmwareVersion_of_mem resource st c silent hm] at h
    cases h
    exact loadedPair_lookups_isSome resource st
  · rw [checkFirmwareVersion_of_not_mem resource st c silent hm] at h
    cases h
    exact loadedPair_lookups_isSome resource st

lemma checkFirmwareVersion_ok_checked_mono
    (resource : FirmwareUpdateCheckerLookup) (st : ExtState) (c : Container)
    (silent : Bool) (st1 : ExtState) (eff : Effects)
    (h : checkFirmwareVersion resource st (some c) silent = Except.ok (st1, eff))
    (x : String) (hx : x ∈ st.checked_printer_names) :
    x ∈ st1.checked_printer_names := by
  by_cases hm : c.definitionName ∈ ((loadedPair resource st).1).checked_printer_names
  · rw [checkFirmwareVersion_of_mem resource st c silent hm] at h
    cases h
    rw [loadedPair_checked]
    exact hx
  · rw [checkFirmwareVersion_of_not_mem resource st c silent hm] at h
    cases h
    simp only [loadedPair_checked]
    exact List.mem_cons_of_mem _ hx

lemma onActionTriggered_ok_state (st : ExtState) (f : String → Bool)
    (m : FirmwareUpdateCheckerMessage) (a : String) (st1 : ExtState) (eff : Effects)
    (h : onActionTriggered st f m a = Except.ok (st1, eff)) : st1 = st := by
  unfold onActionTriggered at h
  split at h
  · split at h
    · cases h
    · split at h
      · split at h <;> (cases h; rfl)
      · cases h; rfl
  · cases h; rfl

end FirmwareUpdate

namespace FirmwareUpdate

lemma step_checked_mono (resource : FirmwareUpdateCheckerLookup) (e : Event)
    (st : ExtState) (x : String) (hx : x ∈ st.checked_printer_names) :
    x ∈ ((step resource e st).1).checked_printer_names := by
  cases e with
  | pluginsLoaded => simpa [step, onPluginsLoaded_checked] using hx
  | containerAdded c =>
    by_cases hc : st.containerAddedConnected
    · by_cases hg : c.isGlobalStack
      · rcases hr : checkFirmwareVersion resource st (some c) true with msg | ⟨st1, eff⟩
        · simpa [step, onContainerAdded, hc, hg, hr] using hx
        · simpa [step, onContainerAdded, hc, hg, hr] using
            checkFirmwareVersion_ok_checked_mono resource st c true st1 eff hr x hx
      · simpa [step, onContainerAdded, hc, hg] using hx
    · simpa [step, hc] using hx
  | jobFinished => simpa [step, onJobFinished] using hx
  | actionTriggered f m a =>
    rcases hr : onActionTriggered st f m a with msg | ⟨st1, eff⟩
    · simpa [step, hr] using hx
    · have hs := onActionTriggered_ok_state st f m a st1 eff hr
      subst hs
      simpa [step, hr] using hx
  | checkCall c silent =>
    rcases hr : checkFirmwareVersion resource st (some c) silent with msg | ⟨st1, eff⟩
    · simpa [step, hr] using hx
    · simpa [step, hr] using
        checkFirmwareVersion_ok_checked_mono resource st c silent st1 eff hr x hx

lemma step_inv_checked_lookups (resource : FirmwareUpdateCheckerLookup)
    (e : Event) (st : ExtState)
    (ih : st.checked_printer_names ≠ [] → st.lookups.isSome) :
    ((step resource e st).1).checked_printer_names ≠ [] →
      ((step resource e st).1).lookups.isSome := by
  cases e with
  | pluginsLoaded =>
    intro _
    simpa [step] using onPluginsLoaded_lookups_isSome resource st
  | containerAdded c =>
    by_cases hc : st.containerAddedConnected
    · by_cases hg : c.isGlobalStack
      · rcases hr : checkFirmwareVersion resource st (some c) true with msg | ⟨st1, eff⟩
        · simpa [step, onContainerAdded, hc, hg, hr] using ih
        · simpa [step, onContainerAdded, hc, hg, hr] using
            fun _ => checkFirmwareVersion_ok_lookups_isSome resource st c true st1 eff hr
      · simpa [step, onContainerAdded, hc, hg] using ih
    · simpa [step, hc] using ih
  | jobFinished => simpa [step, onJobFinished] using ih
  | actionTriggered f m a =>
    rcases hr : onActionTriggered st f m a with msg | ⟨st1, eff⟩
    · simpa [step, hr] using ih
    · have hs := onActionTriggered_ok_state st f m a st1 eff hr
      subst hs
      simpa [step, hr] using ih
  | checkCall c silent =>
    rcases hr : checkFirmwareVersion resource st (some c) silent with msg | ⟨st1, eff⟩
    · simpa [step, hr] using ih
    · simpa [step, hr] using
        fun _ => checkFirmwareVersion_ok_lookups_isSome resource st c silent st1 eff hr

lemma reachable_checked_lookups (resource : FirmwareUpdateCheckerLookup)
    (st : ExtState) (h : Reachable resource st) :
    st.checked_printer_names ≠ [] → st.lookups.isSome := by
  induction h with
  | init host =>
    intro hne
    simp [initState] at hne
  | next e st hst ih => exact step_inv_checked_lookups resource e st ih

end FirmwareUpdate

namespace FirmwareUpdate

lemma getSettingsKeyForMachine_inj (a b : String)
    (h : getSettingsKeyForMachine a = getSettingsKeyForMachine b) : a = b := by
  unfold getSettingsKeyForMachine at h
  have hd := congrArg String.data h
  simp only [String.data_append] at hd
  exact String.ext (List.append_cancel_left hd)

lemma filter_regs_eq (mid : String) (ids : List String) (hn : ids.Nodup)
    (hm : mid ∈ ids) :
    (ids.map (fun m => (getSettingsKeyForMachine m, PrefVal.s ""))).filter
        (fun kv => kv.1 = getSettingsKeyForMachine mid)
      = [(getSettingsKeyForMachine mid, PrefVal.s "")] := by
  induction ids with
  | nil => cases hm
  | cons a t ih =>
    have hna : a ∉ t := (List.nodup_cons.mp hn).1
    have hnt : t.Nodup := (List.nodup_cons.mp hn).2
    rcases List.mem_cons.mp hm with heq | hmt
    · subst heq
      have htail : (t.map (fun m => (getSettingsKeyForMachine m, PrefVal.s ""))).filter
          (fun kv => kv.1 = getSettingsKeyForMachine mid) = [] := by
        rw [List.filter_eq_nil_iff]
        intro kv hkv
        rcases List.mem_map.mp hkv with ⟨m, hmmem, rfl⟩
        simp only [decide_eq_true_eq]
        intro hkey
        exact hna ((getSettingsKeyForMachine_inj m mid hkey) ▸ hmmem)
      simp [List.filter_cons, htail]
    · have hkeyne : ¬ (getSettingsKeyForMachine a = getSettingsKeyForMachine mid) := by
        intro hkey
        exact hna ((getSettingsKeyForMachine_inj a mid hkey).symm ▸ hmt)
      simp only [List.map_cons, List.filter_cons, decide_eq_true_eq]
      rw [if_neg (by simpa using hkeyne)]
      exact ih hnt hmt

lemma addPreference_mem_keys (p : PrefStore) (k : String) (v : PrefVal) :
    k ∈ (addPreference p k v).map Prod.fst := by
  unfold addPreference
  split
  · rename_i h
    rcases List.any_eq_true.mp h with ⟨kv, hkv, hk⟩
    simp only [decide_eq_true_eq] at hk
    exact List.mem_map.mpr ⟨kv, hkv, hk⟩
  · simp

lemma addPreference_keys_mono (p : PrefStore) (k2 : String) (v : PrefVal)
    (k : String) (h : k ∈ p.map Prod.fst) :
    k ∈ (addPreference p k2 v).map Prod.fst := by
  unfold addPreference
  split
  · exact h
  · simp only [List.map_append]
    exact List.mem_append_left _ h

lemma foldl_addPreference_keys_mono (regs : List (String × PrefVal))
    (p : PrefStore) (k : String) (h : k ∈ p.map Prod.fst) :
    k ∈ ((regs.foldl (fun p kv => addPreference p kv.1 kv.2) p).map Prod.fst) := by
  induction regs generalizing p with
  | nil => exact h
  | cons a t ih =>
    exact ih (addPreference p a.1 a.2) (addPreference_keys_mono p a.1 a.2 k h)

lemma foldl_addPreference_mem (regs : List (String × PrefVal)) (p : PrefStore)
    (k : String) (v : PrefVal) (h : (k, v) ∈ regs) :
    k ∈ ((regs.foldl (fun p kv => addPreference p kv.1 kv.2) p).map Prod.fst) := by
  induction regs generalizing p with
  | nil => cases h
  | cons a t ih =>
    rcases List.mem_cons.mp h with heq | hmt
    · subst heq
      exact foldl_addPreference_keys_mono t (addPreference p k v) k
        (addPreference_mem_keys p k v)
    · exact ih (addPreference p a.1 a.2) hmt

lemma checkFirmwareVersion_mem_isSome_noop
    (resource : FirmwareUpdateCheckerLookup) (st : ExtState) (c : Container)
    (silent : Bool) (hsome : st.lookups.isSome)
    (hmem : c.definitionName ∈ st.checked_printer_names) :
    checkFirmwareVersion resource st (some c) silent
      = Except.ok (st, emptyEffects) := by
  have hl : loadedPair resource st = (st, []) := loadedPair_of_isSome resource st hsome
  rw [checkFirmwareVersion_of_mem resource st c silent (by rw [hl]; exact hmem), hl]
  rfl

lemma checkFirmwareVersion_ok_connected
    (resource : FirmwareUpdateCheckerLookup) (st : ExtState) (c : Container)
    (silent : Bool) (st1 : ExtState) (eff : Effects)
    (h : checkFirmwareVersion resource st (some c) silent = Except.ok (st1, eff)) :
    st1.containerAddedConnected = st.containerAddedConnected := by
  by_cases hm : c.definitionName ∈ ((loadedPair resource st).1).checked_printer_names
  · rw [checkFirmwareVersion_of_mem resource st c silent hm] at h
    cases h
    exact loadedPair_connected resource st
  · rw [checkFirmwareVersion_of_not_mem resource st c silent hm] at h
    cases h
    exact loadedPair_connected resource st

lemma step_connected (resource : FirmwareUpdateCheckerLookup) (e : Event)
    (st : ExtState) :
    ((step resource e st).1).containerAddedConnected
      = st.containerAddedConnected := by
  cases e with
  | pluginsLoaded => simpa [step] using onPluginsLoaded_connected resource st
  | containerAdded c =>
    by_cases hc : st.containerAddedConnected
    · by_cases hg : c.isGlobalStack
      · rcases hr : checkFirmwareVersion resource st (some c) true with msg | ⟨st1, eff⟩
        · simp [step, onContainerAdded, hc, hg, hr]
        · simpa [step, onContainerAdded, hc, hg, hr] using
            checkFirmwareVersion_ok_connected resource st c true st1 eff hr
      · simp [step, onContainerAdded, hc, hg]
    · simp [step, hc]
  | jobFinished => simp [step, onJobFinished]
  | actionTriggered f m a =>
    rcases hr : onActionTriggered st f m a with msg | ⟨st1, eff⟩
    · simp [step, hr]
    · have hs := onActionTriggered_ok_state st f m a st1 eff hr
      subst hs
      simp [step, hr]
  | checkCall c silent =>
    rcases hr : checkFirmwareVersion resource st (some c) silent with msg | ⟨st1, eff⟩
    · simp [step, hr]
    · simpa [step, hr] using
        checkFirmwareVersion_ok_connected resource st c silent st1 eff hr

end FirmwareUpdate

/-! ### Concrete inputs used by the witnesses -/

namespace FirmwareUpdate

/-- A concrete lookup table with one machine entry. -/
def demoLookup : FirmwareUpdateCheckerLookup :=
  { entries := [("9066",
      { version := "1.17.4", redirectUrl := some "https://ultimaker.com/firmware" })] }

/-- A concrete GlobalStack container. -/
def demoContainer : Container :=
  { id := "um3_stack_1", definitionName := "Ultimaker 3", isGlobalStack := true }

/-- A second concrete container, a distinct machine with the same definition
name. -/
def demoContainer2 : Container :=
  { id := "um3_stack_2", definitionName := "Ultimaker 3", isGlobalStack := true }

/-- A concrete container that is not a GlobalStack. -/
def demoNonGlobal : Container :=
  { id := "extruder_1", definitionName := "Extruder", isGlobalStack := false }

/-- The extension state after construction on an empty host preference store
followed by one firmware check for `demoContainer`. -/
def demoState : ExtState :=
  (step demoLookup (Event.checkCall demoContainer false) (initState [])).1

/-- The extension state after construction on an empty host preference store
followed by the pluginsLoaded signal. -/
def demoLoadedState : ExtState := (onPluginsLoaded demoLookup (initState [])).1

/-- The extension state after construction on a host preference store in
which automatic update checks are disabled. -/
def demoDisabledState : ExtState :=
  initState [("info/automatic_update_check", PrefVal.b false)]

end FirmwareUpdate

/-! ### The claims -/

namespace FirmwareUpdate

/-- Claim C1: for every container whose definition name is already a member
of the checked-set, a call to checkFirmwareVersion on a reachable extension
state returns without creating or starting a check job and leaves the whole
state — in particular the checked-set, the lookup table, the download URL,
and the stored job reference — unchanged. -/
theorem checkFirmwareVersion_duplicate_is_noop
    (resource : FirmwareUpdateCheckerLookup) (st : ExtState) (c : Container)
    (silent : Bool) (hreach : Reachable resource st)
    (hmem : c.definitionName ∈ st.checked_printer_names) :
    checkFirmwareVersion resource st (some c) silent
      = Except.ok (st, emptyEffects) :=
  checkFirmwareVersion_mem_isSome_noop resource st c silent
    (reachable_checked_lookups resource st hreach (List.ne_nil_of_mem hmem)) hmem

/-- Witness for C1 at a concrete reachable state whose checked-set already
holds the container's definition name. -/
theorem checkFirmwareVersion_duplicate_is_noop_witness :
    checkFirmwareVersion demoLookup demoState (some demoContainer) false
      = Except.ok (demoState, emptyEffects) :=
  checkFirmwareVersion_duplicate_is_noop demoLookup demoState demoContainer false
    (Reachable.next (Event.checkCall demoContainer false) (initState [])
      (Reachable.init []))
    (by decide)

/-- Claim C2: for every container whose definition name is not yet in the
checked-set, checkFirmwareVersion adds that name to the checked-set and
creates and starts exactly one background check job, storing it as the
single current job reference. -/
theorem checkFirmwareVersion_new_name_starts_job
    (resource : FirmwareUpdateCheckerLookup) (st : ExtState) (c : Container)
    (silent : Bool)
    (hmem : c.definitionName ∉ st.checked_printer_names) :
    ∃ st1 regs,
      checkFirmwareVersion resource st (some c) silent = Except.ok (st1,
        { jobsStarted := [{ containerName := c.definitionName, silent := silent }],
          prefsRegistered := regs, logs := [], urlsOpened := [] }) ∧
      st1.checked_printer_names = c.definitionName :: st.checked_printer_names ∧
      st1.check_job
        = some { containerName := c.definitionName, silent := silent } := by
  have hm0 : c.definitionName ∉ ((loadedPair resource st).1).checked_printer_names := by
    rw [loadedPair_checked]
    exact hmem
  refine ⟨_, _, checkFirmwareVersion_of_not_mem resource st c silent hm0, ?_, rfl⟩
  simp [loadedPair_checked]

/-- Witness for C2 at a freshly constructed state. -/
theorem checkFirmwareVersion_new_name_starts_job_witness :
    ∃ st1 regs,
      checkFirmwareVersion demoLookup (initState []) (some demoContainer) false
        = Except.ok (st1,
          { jobsStarted :=
              [{ containerName := demoContainer.definitionName, silent := false }],
            prefsRegistered := regs, logs := [], urlsOpened := [] }) ∧
      st1.checked_printer_names
        = demoContainer.definitionName :: (initState []).checked_printer_names ∧
      st1.check_job
        = some { containerName := demoContainer.definitionName, silent := false } :=
  checkFirmwareVersion_new_name_starts_job demoLookup (initState []) demoContainer
    false (by decide)

/-- Claim C3: once the lookup table has been set, every later invocation of
_onPluginsLoaded returns immediately, replacing neither the lookup table nor
any other part of the state and registering no preference. -/
theorem onPluginsLoaded_idempotent
    (resource : FirmwareUpdateCheckerLookup) (st : ExtState)
    (h : st.lookups.isSome) :
    onPluginsLoaded resource st = (st, []) :=
  onPluginsLoaded_of_isSome resource st h

/-- Witness for C3 at a concrete state that already loaded the table. -/
theorem onPluginsLoaded_idempotent_witness :
    onPluginsLoaded demoLookup demoLoadedState = (demoLoadedState, []) :=
  onPluginsLoaded_idempotent demoLookup demoLoadedState (by decide)

end FirmwareUpdate

namespace FirmwareUpdate

/-- Claim C4: in the notification-action callback, when the lookup returns no
download URL for the message's machine id, or when opening the URL fails, an
error is logged and nothing else happens: no exception propagates to the
caller, the extension state is unchanged, and no job is started and no
preference registered. -/
theorem onActionTriggered_failure_logs_error
    (st : ExtState) (l : FirmwareUpdateCheckerLookup) (openUrl : String → Bool)
    (m : FirmwareUpdateCheckerMessage)
    (hl : st.lookups = some l)
    (hfail : l.getRedirectUserFor m.machineId = none ∨
      ∃ url, l.getRedirectUserFor m.machineId = some url ∧ openUrl url = false) :
    ∃ msg eff,
      onActionTriggered st openUrl m STR_ACTION_DOWNLOAD = Except.ok (st, eff) ∧
      eff.logs = [(LogLevel.err, msg)] ∧
      eff.jobsStarted = [] ∧ eff.prefsRegistered = [] := by
  rcases hfail with hnone | ⟨url, hurl, hopen⟩
  · refine ⟨"Can not find URL for " ++ m.machineId,
      { jobsStarted := [], prefsRegistered := [],
        logs := [(LogLevel.err, "Can not find URL for " ++ m.machineId)],
        urlsOpened := [] }, ?_, rfl, rfl, rfl⟩
    simp [onActionTriggered, hl, hnone]
  · refine ⟨"Can not reach URL: " ++ url,
      { jobsStarted := [], prefsRegistered := [],
        logs := [(LogLevel.err, "Can not reach URL: " ++ url)],
        urlsOpened := [url] }, ?_, rfl, rfl, rfl⟩
    simp [onActionTriggered, hl, hurl, hopen]

/-- Witness for C4: a machine id with a known URL whose opening fails. -/
theorem onActionTriggered_failure_logs_error_witness :
    ∃ msg eff,
      onActionTriggered demoLoadedState (fun _ => false)
          { machineId := "9066" } STR_ACTION_DOWNLOAD
        = Except.ok (demoLoadedState, eff) ∧
      eff.logs = [(LogLevel.err, msg)] ∧
      eff.jobsStarted = [] ∧ eff.prefsRegistered = [] :=
  onActionTriggered_failure_logs_error demoLoadedState demoLookup (fun _ => false)
    { machineId := "9066" } (by decide)
    (Or.inr ⟨"https://ultimaker.com/firmware", by decide, rfl⟩)

/-- Claim C5: when the user triggers the download action on a new-firmware
notification and the lookup table has a redirect URL for the message's
machine id, the extension opens exactly that URL in the desktop browser. -/
theorem onActionTriggered_download_opens_url
    (st : ExtState) (l : FirmwareUpdateCheckerLookup) (openUrl : String → Bool)
    (m : FirmwareUpdateCheckerMessage) (url : String)
    (hl : st.lookups = some l)
    (hurl : l.getRedirectUserFor m.machineId = some url) :
    ∃ eff,
      onActionTriggered st openUrl m STR_ACTION_DOWNLOAD = Except.ok (st, eff) ∧
      eff.urlsOpened = [url] := by
  by_cases ho : openUrl url
  · refine ⟨{ jobsStarted := [], prefsRegistered := [],
              logs := [(LogLevel.info,
                "Redirected browser to " ++ url ++
                  " to show newly available firmware.")],
              urlsOpened := [url] }, ?_, rfl⟩
    simp [onActionTriggered, hl, hurl, ho]
  · refine ⟨{ jobsStarted := [], prefsRegistered := [],
              logs := [(LogLevel.err, "Can not reach URL: " ++ url)],
              urlsOpened := [url] }, ?_, rfl⟩
    simp [onActionTriggered, hl, hurl, ho]

/-- Witness for C5: the download action at a machine id with a known URL. -/
theorem onActionTriggered_download_opens_url_witness :
    ∃ eff,
      onActionTriggered demoLoadedState (fun _ => true)
          { machineId := "9066" } STR_ACTION_DOWNLOAD
        = Except.ok (demoLoadedState, eff) ∧
      eff.urlsOpened = ["https://ultimaker.com/firmware"] :=
  onActionTriggered_download_opens_url demoLoadedState demoLookup (fun _ => true)
    { machineId := "9066" } "https://ultimaker.com/firmware" (by decide) (by decide)

/-- Claim C6: when the lookup table is first loaded, for every machine id of
the table exactly one last-checked-firmware preference key, derived from the
machine id, is registered, with the empty string as its initial value; and
the key is afterwards present in host preference storage. -/
theorem onPluginsLoaded_registers_once_per_machine
    (resource : FirmwareUpdateCheckerLookup) (st : ExtState) (mid : String)
    (hwf : resource.WF) (hnone : st.lookups = none)
    (hmid : mid ∈ resource.getMachineIds) :
    ((onPluginsLoaded resource st).2).filter
        (fun kv => kv.1 = getSettingsKeyForMachine mid)
      = [(getSettingsKeyForMachine mid, PrefVal.s "")] ∧
    getSettingsKeyForMachine mid
      ∈ ((onPluginsLoaded resource st).1).prefs.map Prod.fst := by
  rw [onPluginsLoaded_of_none resource st hnone]
  constructor
  · exact filter_regs_eq mid resource.getMachineIds hwf hmid
  · exact foldl_addPreference_mem _ st.prefs (getSettingsKeyForMachine mid)
      (PrefVal.s "")
      (List.mem_map.mpr ⟨mid, hmid, rfl⟩)

/-- Witness for C6 at a freshly constructed state and a concrete table. -/
theorem onPluginsLoaded_registers_once_per_machine_witness :
    ((onPluginsLoaded demoLookup (initState [])).2).filter
        (fun kv => kv.1 = getSettingsKeyForMachine "9066")
      = [(getSettingsKeyForMachine "9066", PrefVal.s "")] ∧
    getSettingsKeyForMachine "9066"
      ∈ ((onPluginsLoaded demoLookup (initState [])).1).prefs.map Prod.fst :=
  onPluginsLoaded_registers_once_per_machine demoLookup (initState []) "9066"
    (show (demoLookup.entries.map Prod.fst).Nodup by decide) (by decide) (by decide)

/-- Claim C7: the checked-set starts empty at construction and grows
monotonically: no dispatched operation of the extension ever removes a name
from it. -/
theorem checked_set_monotone :
    (∀ host : PrefStore, (initState host).checked_printer_names = []) ∧
    (∀ (resource : FirmwareUpdateCheckerLookup) (e : Event) (st : ExtState)
        (x : String), x ∈ st.checked_printer_names →
        x ∈ ((step resource e st).1).checked_printer_names) :=
  ⟨fun _ => rfl, step_checked_mono⟩

/-- Witness for C7: the initial checked-set is empty, and a concrete name in
a concrete state's checked-set survives a step. -/
theorem checked_set_monotone_witness :
    (initState []).checked_printer_names = [] ∧
    "Ultimaker 3" ∈ ((step demoLookup Event.jobFinished demoState).1).checked_printer_names :=
  ⟨checked_set_monotone.1 [],
    checked_set_monotone.2 demoLookup Event.jobFinished demoState "Ultimaker 3"
      (by decide)⟩

end FirmwareUpdate

namespace FirmwareUpdate

/-- Claim C8: calling checkFirmwareVersion with the default container (None)
fails with an exception when the container's definition name is read, rather
than being logged and ignored: the call returns an error in every state. -/
theorem checkFirmwareVersion_none_container_raises
    (resource : FirmwareUpdateCheckerLookup) (st : ExtState) (silent : Bool) :
    checkFirmwareVersion resource st none silent
      = Except.error "AttributeError: NoneType object has no attribute definition" :=
  rfl

/-- Claim C9: a container-added event triggers nothing when the signal was
not connected at construction (the automatic-update-check preference was
disabled) or when the added container is not a GlobalStack; and no operation
ever changes whether the signal is connected. -/
theorem auto_check_only_connected_globalstack :
    (∀ (resource : FirmwareUpdateCheckerLookup) (st : ExtState) (c : Container),
        st.containerAddedConnected = false →
        step resource (Event.containerAdded c) st = (st, emptyEffects)) ∧
    (∀ (resource : FirmwareUpdateCheckerLookup) (st : ExtState) (c : Container),
        c.isGlobalStack = false →
        step resource (Event.containerAdded c) st = (st, emptyEffects)) ∧
    (∀ (resource : FirmwareUpdateCheckerLookup) (e : Event) (st : ExtState),
        ((step resource e st).1).containerAddedConnected
          = st.containerAddedConnected) := by
  refine ⟨?_, ?_, step_connected⟩
  · intro resource st c hc
    simp [step, hc]
  · intro resource st c hg
    by_cases hc : st.containerAddedConnected <;>
      simp [step, onContainerAdded, hc, hg]

/-- Witness for C9: a disabled-preference state ignores a GlobalStack, an
enabled state ignores a non-GlobalStack, and a step keeps the connection
flag. -/
theorem auto_check_only_connected_globalstack_witness :
    step demoLookup (Event.containerAdded demoContainer) demoDisabledState
      = (demoDisabledState, emptyEffects) ∧
    step demoLookup (Event.containerAdded demoNonGlobal) demoState
      = (demoState, emptyEffects) ∧
    ((step demoLookup Event.jobFinished demoState).1).containerAddedConnected
      = demoState.containerAddedConnected :=
  ⟨auto_check_only_connected_globalstack.1 demoLookup demoDisabledState
      demoContainer (by decide),
    auto_check_only_connected_globalstack.2.1 demoLookup demoState demoNonGlobal
      (by decide),
    auto_check_only_connected_globalstack.2.2 demoLookup Event.jobFinished demoState⟩

/-- Claim C10: duplicate-check suppression is keyed by the definition name,
not by machine identity: for two distinct machines sharing a definition
name, the first call to checkFirmwareVersion starts a check job and the
second returns without checking and without changing the state. -/
theorem duplicate_suppression_keyed_by_name
    (resource : FirmwareUpdateCheckerLookup) (st : ExtState)
    (c1 c2 : Container) (silent1 silent2 : Bool)
    (hne : c1 ≠ c2) (hname : c1.definitionName = c2.definitionName)
    (hfresh : c1.definitionName ∉ st.checked_printer_names) :
    ∃ st1 eff1,
      checkFirmwareVersion resource st (some c1) silent1 = Except.ok (st1, eff1) ∧
      eff1.jobsStarted
        = [{ containerName := c1.definitionName, silent := silent1 }] ∧
      checkFirmwareVersion resource st1 (some c2) silent2
        = Except.ok (st1, emptyEffects) := by
  have hm1 : c1.definitionName ∉ ((loadedPair resource st).1).checked_printer_names := by
    rw [loadedPair_checked]
    exact hfresh
  refine ⟨_, _, checkFirmwareVersion_of_not_mem resource st c1 silent1 hm1, rfl, ?_⟩
  apply checkFirmwareVersion_mem_isSome_noop
  · exact loadedPair_lookups_isSome resource st
  · rw [← hname]
    exact List.mem_cons_self _ _

/-- Witness for C10: two distinct Ultimaker 3 stacks sharing one definition
name, checked one after the other from a fresh state. -/
theorem duplicate_suppression_keyed_by_name_witness :
    ∃ st1 eff1,
      checkFirmwareVersion demoLookup (initState []) (some demoContainer) true
        = Except.ok (st1, eff1) ∧
      eff1.jobsStarted
        = [{ containerName := demoContainer.definitionName, silent := true }] ∧
      checkFirmwareVersion demoLookup st1 (some demoContainer2) true
        = Except.ok (st1, emptyEffects) :=
  duplicate_suppression_keyed_by_name demoLookup (initState [])
    demoContainer demoContainer2 true true (by decide) (by decide) (by decide)

end FirmwareUpdate
